import Mathlib

/-!
# Store facade of the raft/badger key-value store (`store.go`)

A shallow embedding of `CreateStore`, `Store.Join`, `Store.Get`, `Store.Set`
and `Store.Delete`.

The facade is glue code: every step of it is a call into a collaborator
(the consensus engine, the storage engine, the protobuf encoder, the cluster
client, the stable-store adapter).  The embedding therefore keeps

* the answers of the collaborators as fields of the handles the code holds
  (`Raft`, `DB`, `Item`) or of an environment `Env`;
* the sequence of collaborator calls a function body issues, in program
  order, as a list of `Event`s;
* the contents of the stable-metadata namespace as explicit state threaded
  through `CreateStore`.

What a collaborator does internally (replication, the FSM run by the
consensus engine, the network) is outside `store.go` and outside the model.
-/

set_option linter.unusedVariables false

namespace RaftBadger

/-! ## Data model -/

/-- A Go byte slice `[]byte`, by content.  The `nil` slice and the empty slice
are both the empty list. -/
abbrev Bytes := List Nat

/-- A Go `string` by content (its bytes), so that `string(b)` and `[]byte(s)`
are the identity on contents. -/
abbrev GoString := List Nat

/-- The bytes of an ASCII literal of the source. -/
def ascii (s : String) : List Nat := s.toList.map Char.toNat

/-- A Go `error` value; `msg` is what `err.Error()` returns. -/
structure Error where
  msg : String
deriving DecidableEq, Repr

/-- A `time.Duration`: a count of nanoseconds. -/
abbrev Duration := Int

/-- Go constant `time.Second`. -/
def Second : Duration := 1000000000

/-- store.go line 17. -/
def retainSnapshotCount : Nat := 2

/-- store.go line 18. -/
def raftTimeout : Duration := 5 * Second

/-- Type `raft.ServerID` (a Go string). -/
abbrev ServerID := GoString

/-- Type `raft.ServerAddress` (a Go string; never converted in `store.go`). -/
abbrev ServerAddress := String

/-- The operations of a `Command` used by `store.go`: `Operation_SET` and
`Operation_DELETE` (the generated protobuf declaration is not part of the
source file). -/
inductive Operation where
  | SET
  | DELETE
deriving DecidableEq, Repr

/-- The protobuf message `Command` with the three fields `store.go` fills. -/
structure Command where
  Operation : Operation
  Key : Bytes
  Value : Bytes
deriving DecidableEq, Repr

/-- Type `raft.RaftState`. -/
inductive RaftState where
  | Follower
  | Candidate
  | Leader
  | Shutdown
deriving DecidableEq, Repr

/-- Type `raft.Config`, restricted to the one field `store.go` assigns. -/
structure Config where
  LocalID : ServerID
deriving DecidableEq, Repr

/-- A `*raft.Raft` handle: the answers the consensus engine gives to the calls
`store.go` makes on it.  `Apply b t` is the value of `Apply(b, t).Error()`,
`GetConfiguration` the value of `GetConfiguration().Error()`. -/
structure Raft where
  State : RaftState
  Leader : ServerAddress
  Apply : Bytes → Duration → Option Error
  GetConfiguration : Option Error

/-- A `*badger.Item`: `Value` is the pair returned by `item.Value()`. -/
structure Item where
  Value : Bytes × Option Error

/-- Type `badger.Options`, restricted to the fields `store.go` assigns. -/
structure Options where
  Dir : String
  ValueDir : String
deriving DecidableEq, Repr

/-- A `*badger.DB` handle: `Get key` is the result of `txn.Get(key)` inside a
read transaction opened on the engine by `View`. -/
structure DB where
  opts : Options
  Get : Bytes → Except Error Item

/-- Value `badger.ErrKeyNotFound`. -/
def ErrKeyNotFound : Error := ⟨"Key not found"⟩

/-- A `*clusterClient` (declared outside `store.go`), by object identity. -/
structure clusterClient where
  ref : Nat
deriving DecidableEq, Repr

/-- A `*sequenceClient` (declared outside `store.go`), by object identity. -/
structure sequenceClient where
  ref : Nat
deriving DecidableEq, Repr

/-- A `*SequenceChunk` (declared outside `store.go`), by object identity. -/
structure SequenceChunk where
  ref : Nat
deriving DecidableEq, Repr

/-- A `*badger.Sequence`, by object identity. -/
structure Sequence where
  ref : Nat
deriving DecidableEq, Repr

/-- A `*sync.Mutex`, by object identity. -/
structure Mutex where
  ref : Nat
deriving DecidableEq, Repr

/-- store.go lines 22-33.  A pointer or map field is `none` when it is `nil`. -/
structure Store where
  raft : Option Raft
  badger : Option DB
  sequenceIds : Option Sequence
  chunkMapMutex : Option Mutex
  sequenceChunks : Option (List (String × SequenceChunk))
  sequenceClient : Option sequenceClient
  clusterClient : Option clusterClient
  nodeId : Nat

/-- The zero value `Store{}` of line 40. -/
def Store.zero : Store :=
  { raft := none, badger := none, sequenceIds := none, chunkMapMutex := none,
    sequenceChunks := none, sequenceClient := none, clusterClient := none, nodeId := 0 }

/-- A resolved `*net.TCPAddr`, by object identity. -/
structure TCPAddr where
  ref : Nat
deriving DecidableEq, Repr

/-- A `*raft.NetworkTransport`, by object identity. -/
structure Transport where
  ref : Nat
deriving DecidableEq, Repr

/-- A `*raft.FileSnapshotStore`, by object identity. -/
structure SnapshotStore where
  ref : Nat
deriving DecidableEq, Repr

/-! ## Collaborator calls -/

/-- One call issued by a function body of `store.go` to a collaborator, with
the arguments it was given.  `raft_AddVoter` is the configuration-change call
of the consensus engine (`AddVoter(id, address, prevIndex, timeout)`); no
function of `store.go` issues it. -/
inductive Event where
  | net_ResolveTCPAddr (network address : String)
  | raft_NewTCPTransport (bindAddr : String) (advertise : TCPAddr) (maxPool : Nat)
      (timeout : Duration)
  | badger_Open (opts : Options)
  | stable_Get (key : Bytes)
  | uuid_NewV4
  | stable_Set (key val : Bytes)
  | raft_NewFileSnapshotStore (base : String) (retain : Nat)
  | raft_NewRaft (conf : Config) (snaps : SnapshotStore) (trans : Transport)
  | golog_Debugf (text : String)
  | golog_Errorf (text : String)
  | raft_GetConfiguration
  | raft_AddVoter (id : ServerID) (address : ServerAddress)
  | raft_State
  | raft_Leader
  | sendCommand (receiver : Option clusterClient) (addr : ServerAddress) (c : Command)
  | proto_Marshal (c : Command)
  | raft_Apply (cmd : Bytes) (timeout : Duration)
  | badger_View
  | txn_Get (key : Bytes)
  | item_Value
deriving DecidableEq, Repr

/-- Calls that write to the local storage engine. -/
def Event.writesStorage : Event → Bool
  | .stable_Set _ _ => true
  | _ => false

/-- Calls that read the local storage engine inside a read transaction. -/
def Event.readsStorage : Event → Bool
  | .badger_View => true
  | .txn_Get _ => true
  | .item_Value => true
  | _ => false

/-- Calls on the consensus engine handle. -/
def Event.onConsensus : Event → Bool
  | .raft_GetConfiguration => true
  | .raft_AddVoter _ _ => true
  | .raft_State => true
  | .raft_Leader => true
  | .raft_Apply _ _ => true
  | .raft_NewRaft _ _ _ => true
  | _ => false

/-- Calls that submit an entry to the local consensus log. -/
def Event.submitsLog : Event → Bool
  | .raft_Apply _ _ => true
  | _ => false

/-- Calls that propose a cluster membership change. -/
def Event.proposesMembership : Event → Bool
  | .raft_AddVoter _ _ => true
  | _ => false

/-- Calls on the cluster client. -/
def Event.onClusterClient : Event → Bool
  | .sendCommand _ _ _ => true
  | _ => false

/-- Calls that only query the consensus engine (`State()`, `Leader()`). -/
def Event.isQuery : Event → Bool
  | .raft_State => true
  | .raft_Leader => true
  | _ => false

/-- The effects in a trace: every call that is not a pure query. -/
def effects (t : List Event) : List Event := t.filter (fun e => !e.isQuery)

/-- The write attempts in a trace: forwarding to the leader, or submission to
the consensus log. -/
def attempts (t : List Event) : List Event :=
  t.filter (fun e => e.onClusterClient || e.submitsLog)

/-- The commands a trace hands over, to the cluster client (forwarded) or to
the encoder whose output goes to the consensus log (submitted). -/
def commandsOf : List Event → List Command
  | [] => []
  | .sendCommand _ _ c :: t => c :: commandsOf t
  | .proto_Marshal c :: t => c :: commandsOf t
  | _ :: t => commandsOf t

/-- Modelled from the spec: a failure of a stable-store read other than the
not-found outcome.  The stable-store adapter is declared outside `store.go`;
it must report not-found distinguishably from any other failure. -/
abbrev ReadFault := { e : Error // e.msg ≠ "Key not found" }

/-- The environment of the facade: the answers of the collaborators that are
not reached through a handle.  `sendCommand` gives the error result of
`(*clusterClient).sendCommand` (its first result is discarded by both
callers); `stableGetFault` and `stableSetFault` are the storage failures the
stable-store adapter meets, if any. -/
structure Env where
  ResolveTCPAddr : String → String → Except Error TCPAddr
  NewTCPTransport : String → TCPAddr → Nat → Duration → Except Error Transport
  Open : Options → Except Error DB
  stableGetFault : Bytes → Option ReadFault
  stableSetFault : Bytes → Bytes → Option Error
  NewV4 : Except Error GoString
  NewFileSnapshotStore : String → Nat → Except Error SnapshotStore
  NewRaft : Config → SnapshotStore → Transport → Except Error Raft
  Marshal : Command → Bytes × Option Error
  sendCommand : Option clusterClient → ServerAddress → Command → Option Error

/-- How a call ends: it returns, or it dereferences a nil pointer. -/
inductive Outcome (α : Type) where
  | returned (a : α)
  | nilDeref

/-- The run of a method: the collaborator calls it issued, and how it ended. -/
structure Run (α : Type) where
  trace : List Event
  out : Outcome α

/-! ## Methods of `Store` -/

/-- store.go lines 91-99. -/
def Store.Join (store : Store) (nodeId addr : String) : Run (Option Error) :=
  let t0 := [Event.golog_Debugf
    ("received join request from remote node [" ++ nodeId ++ "] at [" ++ addr ++ "]")]
  match store.raft with
  | none => ⟨t0, .nilDeref⟩
  | some r =>
    let t1 := t0 ++ [Event.raft_GetConfiguration]
    match r.GetConfiguration with
    | some err =>
      ⟨t1 ++ [Event.golog_Errorf ("failed to get raft configuration: " ++ err.msg)],
        .returned none⟩
    | none => ⟨t1, .returned none⟩

/-- store.go lines 101-111.  The result is the pair `(value, err)`. -/
def Store.Get (store : Store) (key : Bytes) : Run (Bytes × Option Error) :=
  match store.badger with
  | none => ⟨[], .nilDeref⟩
  | some db =>
    match db.Get key with
    | .error err => ⟨[.badger_View, .txn_Get key], .returned ([], some err)⟩
    | .ok item =>
      ⟨[.badger_View, .txn_Get key, .item_Value], .returned (item.Value.1, item.Value.2)⟩

/-- store.go lines 113-126. -/
def Store.Set (env : Env) (store : Store) (key value : Bytes) : Run (Option Error) :=
  let c : Command := { Operation := .SET, Key := key, Value := value }
  match store.raft with
  | none => ⟨[], .nilDeref⟩
  | some r =>
    if r.State ≠ RaftState.Leader then
      let t := [Event.raft_State, Event.raft_Leader,
        Event.sendCommand store.clusterClient r.Leader c]
      match env.sendCommand store.clusterClient r.Leader c with
      | some err => ⟨t, .returned (some err)⟩
      | none => ⟨t, .returned none⟩
    else
      match env.Marshal c with
      | (_, some err) => ⟨[.raft_State, .proto_Marshal c], .returned (some err)⟩
      | (b, none) =>
        ⟨[.raft_State, .proto_Marshal c, .raft_Apply b raftTimeout],
          .returned (r.Apply b raftTimeout)⟩

/-- store.go lines 128-141. -/
def Store.Delete (env : Env) (store : Store) (key : Bytes) : Run (Option Error) :=
  let c : Command := { Operation := .DELETE, Key := key, Value := [] }
  match store.raft with
  | none => ⟨[], .nilDeref⟩
  | some r =>
    if r.State ≠ RaftState.Leader then
      let t := [Event.raft_State, Event.raft_Leader,
        Event.sendCommand store.clusterClient r.Leader c]
      match env.sendCommand store.clusterClient r.Leader c with
      | some err => ⟨t, .returned (some err)⟩
      | none => ⟨t, .returned none⟩
    else
      match env.Marshal c with
      | (_, some err) => ⟨[.raft_State, .proto_Marshal c], .returned (some err)⟩
      | (b, none) =>
        ⟨[.raft_State, .proto_Marshal c, .raft_Apply b raftTimeout],
          .returned (r.Apply b raftTimeout)⟩


/-! ## The stable-metadata adapter -/

/-- The stable-metadata namespace of the storage directory: field name to
stored value, `none` for a field that was never set. -/
abbrev StableFields := Bytes → Option Bytes

/-- Modelled from the spec: `stableStore.Get`, declared outside `store.go`.
It yields the stored bytes of a field, reports the distinguished not-found
outcome (the storage engine's "Key not found") for a field that was never
set, and reports the storage failure when the read itself fails. -/
def stableStore.Get (env : Env) (fields : StableFields) (key : Bytes) : Bytes × Option Error :=
  match env.stableGetFault key with
  | some fault => ([], some fault.1)
  | none =>
    match fields key with
    | some v => (v, none)
    | none => ([], some ErrKeyNotFound)

/-- Modelled from the spec: `stableStore.Set`, declared outside `store.go`.
It stores the bytes under the field, or reports the storage failure and
leaves the namespace as it was. -/
def stableStore.Set (env : Env) (fields : StableFields) (key val : Bytes) :
    StableFields × Option Error :=
  match env.stableSetFault key val with
  | some err => (fields, some err)
  | none => (Function.update fields key (some val), none)

/-! ## `CreateStore` -/

/-- The stable field that holds the node identity (line 63). -/
def serverIdKey : Bytes := ascii "/_server_id_/"

/-- The run of `CreateStore`: the collaborator calls, the stable namespace it
leaves behind, and the pair `(*Store, error)` it returns. -/
structure CreateRun where
  trace : List Event
  fields : StableFields
  out : Except Error Store

/-- store.go lines 63-76: load the node identity into `config.LocalID`, or
generate one.  The result of `stable.Set` on line 68 is not inspected. -/
def CreateStore.identity (env : Env) (fields : StableFields) (config : Config) :
    List Event × StableFields × Except Error Config :=
  match stableStore.Get env fields serverIdKey with
  | (_, some err) =>
    if err.msg = "Key not found" then
      match env.NewV4 with
      | .error err => ([.stable_Get serverIdKey, .uuid_NewV4], fields, .error err)
      | .ok uuid =>
        ([.stable_Get serverIdKey, .uuid_NewV4, .stable_Set serverIdKey uuid],
          (stableStore.Set env fields serverIdKey uuid).1,
          .ok { config with LocalID := uuid })
    else
      ([.stable_Get serverIdKey], fields, .error err)
  | (id, none) => ([.stable_Get serverIdKey], fields, .ok { config with LocalID := id })

/-- store.go lines 78-88: the snapshot store and the consensus engine. -/
def CreateStore.start (env : Env) (directory : String) (store : Store) (config : Config)
    (transport : Transport) : List Event × Except Error Store :=
  match env.NewFileSnapshotStore directory retainSnapshotCount with
  | .error err =>
    ([.raft_NewFileSnapshotStore directory retainSnapshotCount],
      .error ⟨"file snapshot store: " ++ err.msg⟩)
  | .ok snapshots =>
    match env.NewRaft config snapshots transport with
    | .error err =>
      ([.raft_NewFileSnapshotStore directory retainSnapshotCount,
        .raft_NewRaft config snapshots transport],
        .error ⟨"new raft: " ++ err.msg⟩)
    | .ok ra =>
      ([.raft_NewFileSnapshotStore directory retainSnapshotCount,
        .raft_NewRaft config snapshots transport],
        .ok { store with raft := some ra })

/-- store.go lines 36-89, run on a storage directory whose stable namespace is
`fields`. -/
def CreateStore (env : Env) (fields : StableFields) (directory : String)
    (joinAddr : Option String) : CreateRun :=
  let config : Config := { LocalID := ascii "" }
  let store : Store := Store.zero
  let t1 := [Event.net_ResolveTCPAddr "tcp" ":6543"]
  match env.ResolveTCPAddr "tcp" ":6543" with
  | .error err => ⟨t1, fields, .error err⟩
  | .ok addr =>
    let t2 := t1 ++ [Event.raft_NewTCPTransport ":6543" addr 5 (10 * Second)]
    match env.NewTCPTransport ":6543" addr 5 (10 * Second) with
    | .error err => ⟨t2, fields, .error err⟩
    | .ok transport =>
      let opts : Options := { Dir := directory, ValueDir := directory }
      let t3 := t2 ++ [Event.badger_Open opts]
      match env.Open opts with
      | .error err => ⟨t3, fields, .error err⟩
      | .ok db =>
        let store : Store := { store with badger := some db }
        match CreateStore.identity env fields config with
        | (ti, fields1, .error err) => ⟨t3 ++ ti, fields1, .error err⟩
        | (ti, fields1, .ok config) =>
          match CreateStore.start env directory store config transport with
          | (ts, out) => ⟨t3 ++ ti ++ ts, fields1, out⟩

/-- The configurations handed to `raft.NewRaft` in a trace. -/
def raftConfigs : List Event → List Config
  | [] => []
  | .raft_NewRaft conf _ _ :: t => conf :: raftConfigs t
  | _ :: t => raftConfigs t

/-! ## Concrete inputs -/

/-- A follower whose engine names `10.0.0.1:6543` as leader. -/
def followerRaft : Raft :=
  { State := .Follower, Leader := "10.0.0.1:6543", Apply := fun _ _ => none,
    GetConfiguration := none }

/-- A leader whose log accepts every entry. -/
def leaderRaft : Raft :=
  { State := .Leader, Leader := "10.0.0.1:6543", Apply := fun _ _ => none,
    GetConfiguration := none }

/-- A leader whose log rejects every entry. -/
def timeoutRaft : Raft :=
  { State := .Leader, Leader := "10.0.0.1:6543",
    Apply := fun _ _ => some ⟨"timed out enqueuing operation"⟩, GetConfiguration := none }

/-- A consensus engine whose configuration future fails. -/
def brokenConfigRaft : Raft :=
  { State := .Leader, Leader := "10.0.0.1:6543", Apply := fun _ _ => none,
    GetConfiguration := some ⟨"raft is already shutdown"⟩ }

/-- A storage engine holding the single pair `k ↦ v` (bytes 107 and 118). -/
def sampleDB : DB :=
  { opts := { Dir := "/data", ValueDir := "/data" },
    Get := fun key => if key = [107] then .ok ⟨([118], none)⟩ else .error ErrKeyNotFound }

/-- A sample encoder: operation tag, key length, key, value. -/
def sampleMarshal (c : Command) : Bytes × Option Error :=
  ((match c.Operation with | .SET => 0 | .DELETE => 1) :: c.Key.length :: c.Key ++ c.Value, none)

/-- The text of a version-4 UUID. -/
def sampleUuid : GoString := ascii "6ba7b810-9dad-41d1-80b4-00c04fd430c8"

/-- An environment in which every collaborator succeeds. -/
def okEnv : Env :=
  { ResolveTCPAddr := fun _ _ => .ok ⟨1⟩,
    NewTCPTransport := fun _ _ _ _ => .ok ⟨2⟩,
    Open := fun o => .ok { opts := o, Get := fun _ => .error ErrKeyNotFound },
    stableGetFault := fun _ => none,
    stableSetFault := fun _ _ => none,
    NewV4 := .ok sampleUuid,
    NewFileSnapshotStore := fun _ _ => .ok ⟨3⟩,
    NewRaft := fun _ _ _ => .ok followerRaft,
    Marshal := sampleMarshal,
    sendCommand := fun _ _ _ => none }

/-- As `okEnv`, but the encoder fails. -/
def marshalFailEnv : Env :=
  { okEnv with Marshal := fun _ => ([], some ⟨"proto: required field not set"⟩) }

/-- As `okEnv`, but the storage engine rejects the write of a stable field. -/
def setFailEnv : Env :=
  { okEnv with stableSetFault := fun _ _ => some ⟨"No space left on device"⟩ }

/-- The text of another version-4 UUID. -/
def otherUuid : GoString := ascii "0f8fad5b-d9cb-469f-a165-70867728950e"

/-- The environment of a later start, in which the generator yields
`otherUuid`. -/
def restartEnv : Env := { okEnv with NewV4 := .ok otherUuid }

/-- A store as `CreateStore` leaves it, on a follower. -/
def followerStore : Store :=
  { Store.zero with raft := some followerRaft, badger := some sampleDB }

/-- A store as `CreateStore` leaves it, on a leader. -/
def leaderStore : Store :=
  { Store.zero with raft := some leaderRaft, badger := some sampleDB }

/-- A leader store whose consensus log rejects entries. -/
def timeoutStore : Store :=
  { Store.zero with raft := some timeoutRaft, badger := some sampleDB }

/-- A store whose consensus engine fails to report its configuration. -/
def brokenConfigStore : Store :=
  { Store.zero with raft := some brokenConfigRaft, badger := some sampleDB }

/-- A stable namespace that was never written. -/
def emptyFields : StableFields := fun _ => none

/-- A stable namespace that holds the identity `node-1`. -/
def namedFields : StableFields := Function.update emptyFields serverIdKey (some (ascii "node-1"))

end RaftBadger

/-! ## Writes: `Set` and `Delete` -/

namespace RaftBadger

/-- The run of `Set` on a store that is not leader. -/
theorem Set_not_leader (env : Env) (s : Store) (r : Raft) (key value : Bytes)
    (hr : s.raft = some r) (hs : r.State ≠ RaftState.Leader) :
    Store.Set env s key value =
      ⟨[.raft_State, .raft_Leader, .sendCommand s.clusterClient r.Leader ⟨.SET, key, value⟩],
        .returned (env.sendCommand s.clusterClient r.Leader ⟨.SET, key, value⟩)⟩ := by
  simp only [Store.Set, hr, hs, ne_eq, not_false_eq_true, if_true]
  cases h : env.sendCommand s.clusterClient r.Leader ⟨.SET, key, value⟩ <;> rfl

/-- The run of `Delete` on a store that is not leader. -/
theorem Delete_not_leader (env : Env) (s : Store) (r : Raft) (key : Bytes)
    (hr : s.raft = some r) (hs : r.State ≠ RaftState.Leader) :
    Store.Delete env s key =
      ⟨[.raft_State, .raft_Leader, .sendCommand s.clusterClient r.Leader ⟨.DELETE, key, []⟩],
        .returned (env.sendCommand s.clusterClient r.Leader ⟨.DELETE, key, []⟩)⟩ := by
  simp only [Store.Delete, hr, hs, ne_eq, not_false_eq_true, if_true]
  cases h : env.sendCommand s.clusterClient r.Leader ⟨.DELETE, key, []⟩ <;> rfl

/-- The run of `Set` on a leader whose encoder succeeds. -/
theorem Set_leader_ok (env : Env) (s : Store) (r : Raft) (key value : Bytes)
    (hr : s.raft = some r) (hl : r.State = RaftState.Leader)
    (hm : (env.Marshal ⟨.SET, key, value⟩).2 = none) :
    Store.Set env s key value =
      ⟨[.raft_State, .proto_Marshal ⟨.SET, key, value⟩,
          .raft_Apply (env.Marshal ⟨.SET, key, value⟩).1 raftTimeout],
        .returned (r.Apply (env.Marshal ⟨.SET, key, value⟩).1 raftTimeout)⟩ := by
  simp only [Store.Set, hr, hl, ne_eq, not_true_eq_false, if_false]
  rcases h : env.Marshal ⟨.SET, key, value⟩ with ⟨b, e⟩
  rw [h] at hm
  simp only at hm
  subst hm
  rfl

/-- The run of `Set` on a leader whose encoder fails. -/
theorem Set_leader_err (env : Env) (s : Store) (r : Raft) (key value : Bytes) (err : Error)
    (hr : s.raft = some r) (hl : r.State = RaftState.Leader)
    (hm : (env.Marshal ⟨.SET, key, value⟩).2 = some err) :
    Store.Set env s key value =
      ⟨[.raft_State, .proto_Marshal ⟨.SET, key, value⟩], .returned (some err)⟩ := by
  simp only [Store.Set, hr, hl, ne_eq, not_true_eq_false, if_false]
  rcases h : env.Marshal ⟨.SET, key, value⟩ with ⟨b, e⟩
  rw [h] at hm
  simp only at hm
  subst hm
  rfl

/-- The run of `Delete` on a leader whose encoder succeeds. -/
theorem Delete_leader_ok (env : Env) (s : Store) (r : Raft) (key : Bytes)
    (hr : s.raft = some r) (hl : r.State = RaftState.Leader)
    (hm : (env.Marshal ⟨.DELETE, key, []⟩).2 = none) :
    Store.Delete env s key =
      ⟨[.raft_State, .proto_Marshal ⟨.DELETE, key, []⟩,
          .raft_Apply (env.Marshal ⟨.DELETE, key, []⟩).1 raftTimeout],
        .returned (r.Apply (env.Marshal ⟨.DELETE, key, []⟩).1 raftTimeout)⟩ := by
  simp only [Store.Delete, hr, hl, ne_eq, not_true_eq_false, if_false]
  rcases h : env.Marshal ⟨.DELETE, key, []⟩ with ⟨b, e⟩
  rw [h] at hm
  simp only at hm
  subst hm
  rfl

/-- The run of `Delete` on a leader whose encoder fails. -/
theorem Delete_leader_err (env : Env) (s : Store) (r : Raft) (key : Bytes) (err : Error)
    (hr : s.raft = some r) (hl : r.State = RaftState.Leader)
    (hm : (env.Marshal ⟨.DELETE, key, []⟩).2 = some err) :
    Store.Delete env s key =
      ⟨[.raft_State, .proto_Marshal ⟨.DELETE, key, []⟩], .returned (some err)⟩ := by
  simp only [Store.Delete, hr, hl, ne_eq, not_true_eq_false, if_false]
  rcases h : env.Marshal ⟨.DELETE, key, []⟩ with ⟨b, e⟩
  rw [h] at hm
  simp only at hm
  subst hm
  rfl

/-- The commands handed over by `Set` on a store with a consensus engine. -/
theorem commandsOf_Set (env : Env) (s : Store) (r : Raft) (key value : Bytes)
    (hr : s.raft = some r) :
    commandsOf (Store.Set env s key value).trace = [⟨.SET, key, value⟩] := by
  by_cases hl : r.State = RaftState.Leader
  · rcases h : (env.Marshal ⟨.SET, key, value⟩).2 with _ | err
    · rw [Set_leader_ok env s r key value hr hl h]; rfl
    · rw [Set_leader_err env s r key value err hr hl h]; rfl
  · rw [Set_not_leader env s r key value hr hl]; rfl

/-- The commands handed over by `Delete` on a store with a consensus engine. -/
theorem commandsOf_Delete (env : Env) (s : Store) (r : Raft) (key : Bytes)
    (hr : s.raft = some r) :
    commandsOf (Store.Delete env s key).trace = [⟨.DELETE, key, []⟩] := by
  by_cases hl : r.State = RaftState.Leader
  · rcases h : (env.Marshal ⟨.DELETE, key, []⟩).2 with _ | err
    · rw [Delete_leader_ok env s r key hr hl h]; rfl
    · rw [Delete_leader_err env s r key err hr hl h]; rfl
  · rw [Delete_not_leader env s r key hr hl]; rfl

/-- C1: on a store whose consensus state is not Leader, `Set` and `Delete`
issue no write to the local storage engine and no `raft.Apply`; apart from
the two queries `State()` and `Leader()`, the only call is one `sendCommand`
on the store's cluster client, addressed to the leader address the consensus
engine reports and carrying the command built from the arguments. -/
theorem nonleader_write_only_forwards (env : Env) (s : Store) (r : Raft) (key value : Bytes)
    (hr : s.raft = some r) (hs : r.State ≠ RaftState.Leader) :
    ((Store.Set env s key value).trace =
        [.raft_State, .raft_Leader,
          .sendCommand s.clusterClient r.Leader ⟨.SET, key, value⟩]
      ∧ effects (Store.Set env s key value).trace =
        [.sendCommand s.clusterClient r.Leader ⟨.SET, key, value⟩]
      ∧ ∀ e ∈ (Store.Set env s key value).trace,
          e.writesStorage = false ∧ e.submitsLog = false)
    ∧ ((Store.Delete env s key).trace =
        [.raft_State, .raft_Leader,
          .sendCommand s.clusterClient r.Leader ⟨.DELETE, key, []⟩]
      ∧ effects (Store.Delete env s key).trace =
        [.sendCommand s.clusterClient r.Leader ⟨.DELETE, key, []⟩]
      ∧ ∀ e ∈ (Store.Delete env s key).trace,
          e.writesStorage = false ∧ e.submitsLog = false) := by
  rw [Set_not_leader env s r key value hr hs, Delete_not_leader env s r key hr hs]
  refine ⟨⟨rfl, rfl, ?_⟩, rfl, rfl, ?_⟩
  · intro e he
    simp only [List.mem_cons, List.mem_singleton, List.not_mem_nil, or_false] at he
    rcases he with rfl | rfl | rfl <;> exact ⟨rfl, rfl⟩
  · intro e he
    simp only [List.mem_cons, List.mem_singleton, List.not_mem_nil, or_false] at he
    rcases he with rfl | rfl | rfl <;> exact ⟨rfl, rfl⟩

/-- Witness of C1 on a follower store with key `k` and value `v`. -/
theorem nonleader_write_only_forwards_witness :
    (Store.Set okEnv followerStore [107] [118]).trace =
        [.raft_State, .raft_Leader, .sendCommand none "10.0.0.1:6543" ⟨.SET, [107], [118]⟩]
      ∧ (Store.Delete okEnv followerStore [107]).trace =
        [.raft_State, .raft_Leader, .sendCommand none "10.0.0.1:6543" ⟨.DELETE, [107], []⟩] :=
  ⟨(nonleader_write_only_forwards okEnv followerStore followerRaft [107] [118] rfl
      (by decide)).1.1,
    (nonleader_write_only_forwards okEnv followerStore followerRaft [107] [118] rfl
      (by decide)).2.1⟩

/-- C2: on a leader, `Set` never calls the cluster client; it encodes
`Command{SET, key, value}` and, when the encoder succeeds, submits exactly
those bytes to the consensus log with a timeout of 5 seconds
(5000000000 ns) and returns the error of that submission; when the encoder
fails it returns the encoder's error and submits nothing.  `Delete` does the
same with `Command{DELETE, key}`. -/
theorem leader_write_submits (env : Env) (s : Store) (r : Raft) (key value : Bytes)
    (hr : s.raft = some r) (hl : r.State = RaftState.Leader) :
    raftTimeout = 5 * 1000000000
    ∧ ((∀ e ∈ (Store.Set env s key value).trace, e.onClusterClient = false)
      ∧ ((env.Marshal ⟨.SET, key, value⟩).2 = none →
          (Store.Set env s key value).trace =
            [.raft_State, .proto_Marshal ⟨.SET, key, value⟩,
              .raft_Apply (env.Marshal ⟨.SET, key, value⟩).1 raftTimeout]
          ∧ (Store.Set env s key value).out =
            .returned (r.Apply (env.Marshal ⟨.SET, key, value⟩).1 raftTimeout))
      ∧ (∀ err, (env.Marshal ⟨.SET, key, value⟩).2 = some err →
          (Store.Set env s key value).trace =
            [.raft_State, .proto_Marshal ⟨.SET, key, value⟩]
          ∧ (Store.Set env s key value).out = .returned (some err)
          ∧ ∀ e ∈ (Store.Set env s key value).trace, e.submitsLog = false))
    ∧ ((∀ e ∈ (Store.Delete env s key).trace, e.onClusterClient = false)
      ∧ ((env.Marshal ⟨.DELETE, key, []⟩).2 = none →
          (Store.Delete env s key).trace =
            [.raft_State, .proto_Marshal ⟨.DELETE, key, []⟩,
              .raft_Apply (env.Marshal ⟨.DELETE, key, []⟩).1 raftTimeout]
          ∧ (Store.Delete env s key).out =
            .returned (r.Apply (env.Marshal ⟨.DELETE, key, []⟩).1 raftTimeout))
      ∧ (∀ err, (env.Marshal ⟨.DELETE, key, []⟩).2 = some err →
          (Store.Delete env s key).trace =
            [.raft_State, .proto_Marshal ⟨.DELETE, key, []⟩]
          ∧ (Store.Delete env s key).out = .returned (some err)
          ∧ ∀ e ∈ (Store.Delete env s key).trace, e.submitsLog = false)) := by
  refine ⟨by decide, ⟨?_, ?_, ?_⟩, ?_, ?_, ?_⟩
  · intro e he
    rcases h : (env.Marshal ⟨.SET, key, value⟩).2 with _ | err
    · rw [Set_leader_ok env s r key value hr hl h] at he
      simp only [List.mem_cons, List.mem_singleton, List.not_mem_nil, or_false] at he
      rcases he with rfl | rfl | rfl <;> rfl
    · rw [Set_leader_err env s r key value err hr hl h] at he
      simp only [List.mem_cons, List.mem_singleton, List.not_mem_nil, or_false] at he
      rcases he with rfl | rfl <;> rfl
  · intro h
    rw [Set_leader_ok env s r key value hr hl h]
    exact ⟨rfl, rfl⟩
  · intro err h
    rw [Set_leader_err env s r key value err hr hl h]
    refine ⟨rfl, rfl, ?_⟩
    intro e he
    simp only [List.mem_cons, List.mem_singleton, List.not_mem_nil, or_false] at he
    rcases he with rfl | rfl <;> rfl
  · intro e he
    rcases h : (env.Marshal ⟨.DELETE, key, []⟩).2 with _ | err
    · rw [Delete_leader_ok env s r key hr hl h] at he
      simp only [List.mem_cons, List.mem_singleton, List.not_mem_nil, or_false] at he
      rcases he with rfl | rfl | rfl <;> rfl
    · rw [Delete_leader_err env s r key err hr hl h] at he
      simp only [List.mem_cons, List.mem_singleton, List.not_mem_nil, or_false] at he
      rcases he with rfl | rfl <;> rfl
  · intro h
    rw [Delete_leader_ok env s r key hr hl h]
    exact ⟨rfl, rfl⟩
  · intro err h
    rw [Delete_leader_err env s r key err hr hl h]
    refine ⟨rfl, rfl, ?_⟩
    intro e he
    simp only [List.mem_cons, List.mem_singleton, List.not_mem_nil, or_false] at he
    rcases he with rfl | rfl <;> rfl

/-- Witness of C2: a leader whose log rejects the entry, and a leader whose
encoder fails. -/
theorem leader_write_submits_witness :
    ((Store.Set okEnv timeoutStore [107] [118]).trace =
        [.raft_State, .proto_Marshal ⟨.SET, [107], [118]⟩,
          .raft_Apply [0, 1, 107, 118] 5000000000]
      ∧ (Store.Set okEnv timeoutStore [107] [118]).out =
        .returned (some ⟨"timed out enqueuing operation"⟩))
    ∧ ((Store.Delete marshalFailEnv leaderStore [107]).trace =
        [.raft_State, .proto_Marshal ⟨.DELETE, [107], []⟩]
      ∧ (Store.Delete marshalFailEnv leaderStore [107]).out =
        .returned (some ⟨"proto: required field not set"⟩)) :=
  ⟨(leader_write_submits okEnv timeoutStore timeoutRaft [107] [118] rfl rfl).2.1.2.1 rfl,
    ((leader_write_submits marshalFailEnv leaderStore leaderRaft [107] [118] rfl rfl).2.2.2.2
      ⟨"proto: required field not set"⟩ rfl).1,
    ((leader_write_submits marshalFailEnv leaderStore leaderRaft [107] [118] rfl rfl).2.2.2.2
      ⟨"proto: required field not set"⟩ rfl).2.1⟩

/-- Counterexample to C3 as stated: on a leader whose encoder fails, `Set`
makes no attempt at all (neither `sendCommand` nor `raft.Apply`), and still
returns an error. -/
theorem Set_leader_encoder_failure_makes_no_attempt :
    (attempts (Store.Set marshalFailEnv leaderStore [107] [118]).trace).length ≠ 1
    ∧ (Store.Set marshalFailEnv leaderStore [107] [118]).out =
        .returned (some ⟨"proto: required field not set"⟩) :=
  ⟨by decide, rfl⟩

/-- C3 (amended): `Set` and `Delete` never retry and never alter an error.
Not leader: exactly one `sendCommand`, whose error result (nil or not) is the
result of the call.  Leader with a successful encoding: exactly one
`raft.Apply`, whose error result is the result of the call.  Leader with a
failed encoding: no attempt, and the encoder's error is the result. -/
theorem write_single_attempt_unchanged_error (env : Env) (s : Store) (r : Raft)
    (key value : Bytes) (hr : s.raft = some r) :
    ((r.State ≠ RaftState.Leader →
        attempts (Store.Set env s key value).trace =
          [.sendCommand s.clusterClient r.Leader ⟨.SET, key, value⟩]
        ∧ (Store.Set env s key value).out =
          .returned (env.sendCommand s.clusterClient r.Leader ⟨.SET, key, value⟩))
      ∧ (r.State = RaftState.Leader → (env.Marshal ⟨.SET, key, value⟩).2 = none →
        attempts (Store.Set env s key value).trace =
          [.raft_Apply (env.Marshal ⟨.SET, key, value⟩).1 raftTimeout]
        ∧ (Store.Set env s key value).out =
          .returned (r.Apply (env.Marshal ⟨.SET, key, value⟩).1 raftTimeout))
      ∧ (r.State = RaftState.Leader →
        ∀ err, (env.Marshal ⟨.SET, key, value⟩).2 = some err →
          attempts (Store.Set env s key value).trace = []
          ∧ (Store.Set env s key value).out = .returned (some err)))
    ∧ ((r.State ≠ RaftState.Leader →
        attempts (Store.Delete env s key).trace =
          [.sendCommand s.clusterClient r.Leader ⟨.DELETE, key, []⟩]
        ∧ (Store.Delete env s key).out =
          .returned (env.sendCommand s.clusterClient r.Leader ⟨.DELETE, key, []⟩))
      ∧ (r.State = RaftState.Leader → (env.Marshal ⟨.DELETE, key, []⟩).2 = none →
        attempts (Store.Delete env s key).trace =
          [.raft_Apply (env.Marshal ⟨.DELETE, key, []⟩).1 raftTimeout]
        ∧ (Store.Delete env s key).out =
          .returned (r.Apply (env.Marshal ⟨.DELETE, key, []⟩).1 raftTimeout))
      ∧ (r.State = RaftState.Leader →
        ∀ err, (env.Marshal ⟨.DELETE, key, []⟩).2 = some err →
          attempts (Store.Delete env s key).trace = []
          ∧ (Store.Delete env s key).out = .returned (some err))) := by
  refine ⟨⟨?_, ?_, ?_⟩, ?_, ?_, ?_⟩
  · intro hs
    rw [Set_not_leader env s r key value hr hs]
    exact ⟨rfl, rfl⟩
  · intro hl h
    rw [Set_leader_ok env s r key value hr hl h]
    exact ⟨rfl, rfl⟩
  · intro hl err h
    rw [Set_leader_err env s r key value err hr hl h]
    exact ⟨rfl, rfl⟩
  · intro hs
    rw [Delete_not_leader env s r key hr hs]
    exact ⟨rfl, rfl⟩
  · intro hl h
    rw [Delete_leader_ok env s r key hr hl h]
    exact ⟨rfl, rfl⟩
  · intro hl err h
    rw [Delete_leader_err env s r key err hr hl h]
    exact ⟨rfl, rfl⟩

/-- Witness of C3 (amended): a follower forwards once, a leader whose log
rejects the entry submits once and returns that very error, and a leader
whose encoder fails makes no attempt. -/
theorem write_single_attempt_unchanged_error_witness :
    (attempts (Store.Set okEnv followerStore [107] [118]).trace =
        [.sendCommand none "10.0.0.1:6543" ⟨.SET, [107], [118]⟩]
      ∧ (Store.Set okEnv followerStore [107] [118]).out = .returned none)
    ∧ (attempts (Store.Set okEnv timeoutStore [107] [118]).trace =
        [.raft_Apply [0, 1, 107, 118] 5000000000]
      ∧ (Store.Set okEnv timeoutStore [107] [118]).out =
        .returned (some ⟨"timed out enqueuing operation"⟩))
    ∧ (attempts (Store.Delete marshalFailEnv leaderStore [107]).trace = []
      ∧ (Store.Delete marshalFailEnv leaderStore [107]).out =
        .returned (some ⟨"proto: required field not set"⟩)) :=
  ⟨(write_single_attempt_unchanged_error okEnv followerStore followerRaft [107] [118] rfl).1.1
      (by decide),
    (write_single_attempt_unchanged_error okEnv timeoutStore timeoutRaft [107] [118] rfl).1.2.1
      rfl rfl,
    (write_single_attempt_unchanged_error marshalFailEnv leaderStore leaderRaft [107] [118]
      rfl).2.2.2 rfl ⟨"proto: required field not set"⟩ rfl⟩

/-- C9: every command `Delete(key)` forwards or submits is
`Command{DELETE, key}` with an empty value, and every command `Set` builds
has operation SET; on a store with a consensus engine, leader or not, each
call hands over exactly one such command. -/
theorem delete_commands_carry_no_value (env : Env) (s : Store) (key value : Bytes) :
    (∀ c ∈ commandsOf (Store.Delete env s key).trace,
        c.Operation = Operation.DELETE ∧ c.Key = key ∧ c.Value = [])
    ∧ (∀ c ∈ commandsOf (Store.Set env s key value).trace, c.Operation = Operation.SET)
    ∧ (∀ r, s.raft = some r →
        commandsOf (Store.Delete env s key).trace = [⟨.DELETE, key, []⟩]
        ∧ commandsOf (Store.Set env s key value).trace = [⟨.SET, key, value⟩]) := by
  refine ⟨?_, ?_, fun r hr => ⟨commandsOf_Delete env s r key hr, commandsOf_Set env s r key value hr⟩⟩
  · intro c hc
    rcases hr : s.raft with _ | r
    · simp [Store.Delete, hr, commandsOf] at hc
    · rw [commandsOf_Delete env s r key hr, List.mem_singleton] at hc
      subst hc
      exact ⟨rfl, rfl, rfl⟩
  · intro c hc
    rcases hr : s.raft with _ | r
    · simp [Store.Set, hr, commandsOf] at hc
    · rw [commandsOf_Set env s r key value hr, List.mem_singleton] at hc
      subst hc
      rfl

/-- Witness of C9 on a follower (forwarded) and on a leader (submitted). -/
theorem delete_commands_carry_no_value_witness :
    commandsOf (Store.Delete okEnv followerStore [107]).trace = [⟨.DELETE, [107], []⟩]
    ∧ commandsOf (Store.Delete okEnv leaderStore [107]).trace = [⟨.DELETE, [107], []⟩]
    ∧ commandsOf (Store.Set okEnv leaderStore [107] [118]).trace = [⟨.SET, [107], [118]⟩] :=
  ⟨((delete_commands_carry_no_value okEnv followerStore [107] [118]).2.2 followerRaft rfl).1,
    ((delete_commands_carry_no_value okEnv leaderStore [107] [118]).2.2 leaderRaft rfl).1,
    ((delete_commands_carry_no_value okEnv leaderStore [107] [118]).2.2 leaderRaft rfl).2⟩

end RaftBadger

/-! ## `Join` -/

namespace RaftBadger

/-- `Join` returns nil whenever it returns, whatever the configuration future
reports. -/
theorem Join_returns_nil (s : Store) (r : Raft) (nodeId addr : String) (hr : s.raft = some r) :
    (Store.Join s nodeId addr).out = .returned none := by
  simp only [Store.Join, hr]
  cases r.GetConfiguration <;> rfl

/-- No call issued by `Join` proposes a membership change. -/
theorem Join_proposes_nothing (s : Store) (nodeId addr : String) :
    ∀ e ∈ (Store.Join s nodeId addr).trace, e.proposesMembership = false := by
  intro e he
  simp only [Store.Join] at he
  rcases hr : s.raft with _ | r
  · simp only [hr, List.mem_singleton] at he
    subst he; rfl
  · simp only [hr] at he
    rcases hc : r.GetConfiguration with _ | err
    · simp only [hc, List.singleton_append, List.mem_cons, List.mem_singleton,
        List.not_mem_nil, or_false] at he
      rcases he with rfl | rfl <;> rfl
    · simp only [hc, List.singleton_append, List.cons_append, List.nil_append, List.mem_cons,
        List.mem_singleton, List.not_mem_nil, or_false] at he
      rcases he with rfl | rfl | rfl <;> rfl

/-- C4, evaluated on the code: the configuration future of the consensus
engine resolves with an error, `Join` logs it and returns nil. -/
theorem Join_swallows_configuration_error :
    brokenConfigRaft.GetConfiguration = some ⟨"raft is already shutdown"⟩
    ∧ (Store.Join brokenConfigStore "node-2" "10.0.0.2:6543").trace =
        [.golog_Debugf "received join request from remote node [node-2] at [10.0.0.2:6543]",
          .raft_GetConfiguration,
          .golog_Errorf "failed to get raft configuration: raft is already shutdown"]
    ∧ (Store.Join brokenConfigStore "node-2" "10.0.0.2:6543").out = .returned none :=
  ⟨rfl, by decide, rfl⟩

/-- C5, evaluated on the code: on a leader, `Join` fetches the configuration
and returns; it issues no membership proposal for the node. -/
theorem Join_issues_no_membership_proposal :
    (Store.Join leaderStore "node-2" "10.0.0.2:6543").trace =
        [.golog_Debugf "received join request from remote node [node-2] at [10.0.0.2:6543]",
          .raft_GetConfiguration]
    ∧ (Store.Join leaderStore "node-2" "10.0.0.2:6543").trace.filter
        Event.proposesMembership = []
    ∧ (Store.Join leaderStore "node-2" "10.0.0.2:6543").out = .returned none :=
  ⟨by decide, by decide, rfl⟩

end RaftBadger

/-! ## `Get` -/

namespace RaftBadger

/-- C6: `Get(key)` is decided by the storage engine handle alone, inside a
read transaction.  Its calls are exactly `View`, then `txn.Get(key)`, then,
when `txn.Get` found an item, `item.Value()`: all read-transaction calls, none
on the consensus engine and none that writes; a present key gives
`(value, nil)` with the stored bytes; an error of `txn.Get` (key not found or any other) and an
error of `item.Value` come back unchanged, so the result is the key-not-found
error exactly when the engine reported it; and two stores with the same
storage engine, whatever their consensus engines, give the same run. -/
theorem Get_reads_local_engine_only (s : Store) (db : DB) (key : Bytes)
    (hb : s.badger = some db) :
    (∀ err, db.Get key = .error err →
        (s.Get key).trace = [.badger_View, .txn_Get key])
    ∧ (∀ item, db.Get key = .ok item →
        (s.Get key).trace = [.badger_View, .txn_Get key, .item_Value])
    ∧ (∀ item v, db.Get key = .ok item → item.Value = (v, none) →
        (s.Get key).out = .returned (v, none))
    ∧ (db.Get key = .error ErrKeyNotFound →
        (s.Get key).out = .returned ([], some ErrKeyNotFound))
    ∧ (∀ err, db.Get key = .error err → (s.Get key).out = .returned ([], some err))
    ∧ (∀ item, db.Get key = .ok item → (s.Get key).out = .returned item.Value)
    ∧ (∀ v, (s.Get key).out = .returned (v, some ErrKeyNotFound) →
        db.Get key = .error ErrKeyNotFound
        ∨ ∃ item, db.Get key = .ok item ∧ item.Value.2 = some ErrKeyNotFound)
    ∧ (∀ e ∈ (s.Get key).trace,
        e.readsStorage = true ∧ e.onConsensus = false ∧ e.writesStorage = false)
    ∧ (∀ s2 : Store, s2.badger = some db → s2.Get key = s.Get key) := by
  refine ⟨?_, ?_, ?_, ?_, ?_, ?_, ?_, ?_, ?_⟩
  · intro err hg
    simp only [Store.Get, hb, hg]
  · intro item hg
    simp only [Store.Get, hb, hg]
  · intro item v hg hv
    simp only [Store.Get, hb, hg, hv]
  · intro hg
    simp only [Store.Get, hb, hg]
  · intro err hg
    simp only [Store.Get, hb, hg]
  · intro item hg
    simp only [Store.Get, hb, hg]
  · intro v hout
    rcases hg : db.Get key with err | item
    · simp only [Store.Get, hb, hg, Outcome.returned.injEq, Prod.mk.injEq, Option.some.injEq,
        List.nil_eq] at hout
      left
      rw [hout.2]
    · simp only [Store.Get, hb, hg, Outcome.returned.injEq, Prod.mk.injEq] at hout
      right
      exact ⟨item, rfl, hout.2⟩
  · intro e he
    rcases hg : db.Get key with err | item
    · simp only [Store.Get, hb, hg, List.mem_cons, List.mem_singleton, List.not_mem_nil,
        or_false] at he
      rcases he with rfl | rfl <;> exact ⟨rfl, rfl, rfl⟩
    · simp only [Store.Get, hb, hg, List.mem_cons, List.mem_singleton, List.not_mem_nil,
        or_false] at he
      rcases he with rfl | rfl | rfl <;> exact ⟨rfl, rfl, rfl⟩
  · intro s2 hb2
    simp only [Store.Get, hb, hb2]

/-- Witness of C6: a present key and an absent key, read on a follower and on
a leader over the same storage engine, with the calls each read issues. -/
theorem Get_reads_local_engine_only_witness :
    (followerStore.Get [107]).trace = [.badger_View, .txn_Get [107], .item_Value]
    ∧ (followerStore.Get [120]).trace = [.badger_View, .txn_Get [120]]
    ∧ (followerStore.Get [107]).out = .returned ([118], none)
    ∧ (followerStore.Get [120]).out = .returned ([], some ErrKeyNotFound)
    ∧ leaderStore.Get [107] = followerStore.Get [107] :=
  ⟨(Get_reads_local_engine_only followerStore sampleDB [107] rfl).2.1 ⟨([118], none)⟩ rfl,
    (Get_reads_local_engine_only followerStore sampleDB [120] rfl).1 ErrKeyNotFound rfl,
    (Get_reads_local_engine_only followerStore sampleDB [107] rfl).2.2.1 ⟨([118], none)⟩ [118]
      rfl rfl,
    (Get_reads_local_engine_only followerStore sampleDB [120] rfl).2.2.2.1 rfl,
    (Get_reads_local_engine_only followerStore sampleDB [107] rfl).2.2.2.2.2.2.2.2
      leaderStore rfl⟩

end RaftBadger

/-! ## `CreateStore` -/

namespace RaftBadger

/-- Lines 63-76 when the identity field is held: the identity is loaded, or
the read error is returned; nothing is generated or written. -/
theorem identity_held (env : Env) (fields : StableFields) (config : Config) (id : Bytes)
    (hheld : fields serverIdKey = some id) :
    CreateStore.identity env fields config =
        ([.stable_Get serverIdKey], fields, .ok { config with LocalID := id })
    ∨ ∃ err, CreateStore.identity env fields config =
        ([.stable_Get serverIdKey], fields, .error err) := by
  rcases hf : env.stableGetFault serverIdKey with _ | e
  · left
    simp only [CreateStore.identity, stableStore.Get, hf, hheld]
  · right
    refine ⟨e.1, ?_⟩
    simp only [CreateStore.identity, stableStore.Get, hf, e.2, if_false]

/-- Lines 63-76 when the identity field is absent and the step succeeds: an
identifier was generated, put in the configuration, and handed to
`stable.Set`. -/
theorem identity_absent_ok (env : Env) (fields fields1 : StableFields) (config config1 : Config)
    (ti : List Event) (habs : fields serverIdKey = none)
    (h : CreateStore.identity env fields config = (ti, fields1, .ok config1)) :
    ∃ uuid, env.NewV4 = .ok uuid
      ∧ ti = [.stable_Get serverIdKey, .uuid_NewV4, .stable_Set serverIdKey uuid]
      ∧ fields1 = (stableStore.Set env fields serverIdKey uuid).1
      ∧ config1 = { config with LocalID := uuid } := by
  simp only [CreateStore.identity, stableStore.Get, habs] at h
  rcases hf : env.stableGetFault serverIdKey with _ | e
  · simp only [hf, ErrKeyNotFound, if_true] at h
    rcases hu : env.NewV4 with err | uuid
    · simp [hu] at h
    · simp only [hu, Prod.mk.injEq, Except.ok.injEq] at h
      exact ⟨uuid, rfl, h.1.symm, h.2.1.symm, h.2.2.symm⟩
  · simp [hf, e.2] at h

/-- A successful `CreateStore` went through every step: the returned store is
the zero store with the opened storage engine and the started consensus
engine, and the trace is the full call sequence. -/
theorem CreateStore_ok_shape (env : Env) (fields : StableFields) (directory : String)
    (joinAddr : Option String) (st : Store)
    (hok : (CreateStore env fields directory joinAddr).out = .ok st) :
    ∃ addr transport db ti fields1 config snaps ra,
      env.Open { Dir := directory, ValueDir := directory } = .ok db
      ∧ CreateStore.identity env fields { LocalID := ascii "" } = (ti, fields1, .ok config)
      ∧ env.NewRaft config snaps transport = .ok ra
      ∧ st = { Store.zero with badger := some db, raft := some ra }
      ∧ (CreateStore env fields directory joinAddr).fields = fields1
      ∧ (CreateStore env fields directory joinAddr).trace =
          [Event.net_ResolveTCPAddr "tcp" ":6543",
            Event.raft_NewTCPTransport ":6543" addr 5 (10 * Second),
            Event.badger_Open { Dir := directory, ValueDir := directory }]
          ++ ti
          ++ [Event.raft_NewFileSnapshotStore directory retainSnapshotCount,
            Event.raft_NewRaft config snaps transport] := by
  rcases h1 : env.ResolveTCPAddr "tcp" ":6543" with e1 | addr
  · simp [CreateStore, h1] at hok
  rcases h2 : env.NewTCPTransport ":6543" addr 5 (10 * Second) with e2 | transport
  · simp [CreateStore, h1, h2] at hok
  rcases h3 : env.Open { Dir := directory, ValueDir := directory } with e3 | db
  · simp [CreateStore, h1, h2, h3] at hok
  rcases h4 : CreateStore.identity env fields { LocalID := ascii "" } with ⟨ti, fields1, e4 | config⟩
  · simp [CreateStore, h1, h2, h3, h4] at hok
  rcases h5 : env.NewFileSnapshotStore directory retainSnapshotCount with e5 | snaps
  · simp [CreateStore, CreateStore.start, h1, h2, h3, h4, h5] at hok
  rcases h6 : env.NewRaft config snaps transport with e6 | ra
  · simp [CreateStore, CreateStore.start, h1, h2, h3, h4, h5, h6] at hok
  refine ⟨addr, transport, db, ti, fields1, config, snaps, ra, rfl, rfl, h6, ?_, ?_, ?_⟩
  · simp only [CreateStore, CreateStore.start, h1, h2, h3, h4, h5, h6, Except.ok.injEq] at hok
    exact hok.symm
  · simp only [CreateStore, CreateStore.start, h1, h2, h3, h4, h5, h6]
  · simp [CreateStore, CreateStore.start, h1, h2, h3, h4, h5, h6]

/-- C7: when the stable field "/_server_id_/" holds `id`, `CreateStore`
generates no identifier and issues no storage write, and leaves the stable
fields as they were, so the field still holds `id`; every configuration it
hands to the consensus engine has local id `id`, and a store it returns was
started with exactly that configuration. -/
theorem identity_never_changes (env : Env) (fields : StableFields) (directory : String)
    (joinAddr : Option String) (id : Bytes)
    (hheld : fields serverIdKey = some id) :
    (∀ e ∈ (CreateStore env fields directory joinAddr).trace,
        e ≠ Event.uuid_NewV4 ∧ e.writesStorage = false)
    ∧ (CreateStore env fields directory joinAddr).fields = fields
    ∧ (CreateStore env fields directory joinAddr).fields serverIdKey = some id
    ∧ (∀ c ∈ raftConfigs (CreateStore env fields directory joinAddr).trace, c.LocalID = id)
    ∧ (∀ st, (CreateStore env fields directory joinAddr).out = .ok st →
        raftConfigs (CreateStore env fields directory joinAddr).trace = [{ LocalID := id }]
        ∧ ∃ snaps transport ra,
            env.NewRaft { LocalID := id } snaps transport = .ok ra ∧ st.raft = some ra) := by
  rcases h1 : env.ResolveTCPAddr "tcp" ":6543" with e1 | addr
  · simp [CreateStore, h1, hheld, raftConfigs, Event.writesStorage]
  rcases h2 : env.NewTCPTransport ":6543" addr 5 (10 * Second) with e2 | transport
  · simp [CreateStore, h1, h2, hheld, raftConfigs, Event.writesStorage]
  rcases h3 : env.Open { Dir := directory, ValueDir := directory } with e3 | db
  · simp [CreateStore, h1, h2, h3, hheld, raftConfigs, Event.writesStorage]
  rcases identity_held env fields { LocalID := ascii "" } id hheld with h4 | ⟨e4, h4⟩
  swap
  · simp [CreateStore, h1, h2, h3, h4, hheld, raftConfigs, Event.writesStorage]
  rcases h5 : env.NewFileSnapshotStore directory retainSnapshotCount with e5 | snaps
  · simp [CreateStore, CreateStore.start, h1, h2, h3, h4, h5, hheld, raftConfigs,
      Event.writesStorage]
  rcases h6 : env.NewRaft { LocalID := id } snaps transport with e6 | ra
  · simp [CreateStore, CreateStore.start, h1, h2, h3, h4, h5, h6, hheld, raftConfigs,
      Event.writesStorage]
  · have hrun : CreateStore env fields directory joinAddr =
        ⟨[Event.net_ResolveTCPAddr "tcp" ":6543",
            Event.raft_NewTCPTransport ":6543" addr 5 (10 * Second),
            Event.badger_Open { Dir := directory, ValueDir := directory },
            Event.stable_Get serverIdKey,
            Event.raft_NewFileSnapshotStore directory retainSnapshotCount,
            Event.raft_NewRaft { LocalID := id } snaps transport],
          fields,
          .ok { Store.zero with badger := some db, raft := some ra }⟩ := by
      simp [CreateStore, CreateStore.start, h1, h2, h3, h4, h5, h6]
    rw [hrun]
    refine ⟨?_, rfl, hheld, ?_, ?_⟩
    · intro e he
      simp only [List.singleton_append, List.cons_append, List.nil_append, List.mem_cons,
        List.mem_singleton, List.not_mem_nil, or_false] at he
      rcases he with rfl | rfl | rfl | rfl | rfl | rfl <;> exact ⟨by simp, rfl⟩
    · intro c hc
      simp only [List.singleton_append, List.cons_append, List.nil_append, raftConfigs,
        List.mem_singleton] at hc
      rw [hc]
    · intro st hst
      simp only [Except.ok.injEq] at hst
      refine ⟨by simp [raftConfigs], snaps, transport, ra, h6, ?_⟩
      rw [← hst]

/-- Witness of C7: a directory whose identity field holds `node-1`. -/
theorem identity_never_changes_witness :
    (CreateStore okEnv namedFields "/data" none).fields serverIdKey = some (ascii "node-1")
    ∧ raftConfigs (CreateStore okEnv namedFields "/data" none).trace =
        [{ LocalID := ascii "node-1" }] :=
  ⟨(identity_never_changes okEnv namedFields "/data" none (ascii "node-1")
      (by simp [namedFields])).2.2.1,
    ((identity_never_changes okEnv namedFields "/data" none (ascii "node-1")
      (by simp [namedFields])).2.2.2.2
      { Store.zero with
        badger := some { opts := { Dir := "/data", ValueDir := "/data" },
                         Get := fun _ => .error ErrKeyNotFound },
        raft := some followerRaft } rfl).1⟩

/-- When the identity field is absent, `stable.Set` meets no storage failure
and `CreateStore` returns a store, the field afterwards holds the generated
identifier, which is the local id given to the consensus engine. -/
theorem fresh_identity_persisted_when_write_succeeds (env : Env) (fields : StableFields)
    (directory : String) (joinAddr : Option String) (st : Store)
    (habs : fields serverIdKey = none)
    (hset : ∀ v, env.stableSetFault serverIdKey v = none)
    (hok : (CreateStore env fields directory joinAddr).out = .ok st) :
    ∃ uuid, env.NewV4 = .ok uuid
      ∧ (CreateStore env fields directory joinAddr).fields serverIdKey = some uuid
      ∧ raftConfigs (CreateStore env fields directory joinAddr).trace = [{ LocalID := uuid }] := by
  obtain ⟨addr, transport, db, ti, fields1, config, snaps, ra, _, hid, _, _, hf, ht⟩ :=
    CreateStore_ok_shape env fields directory joinAddr st hok
  obtain ⟨uuid, hu, hti, hf1, hc⟩ :=
    identity_absent_ok env fields fields1 { LocalID := ascii "" } config ti habs hid
  refine ⟨uuid, hu, ?_, ?_⟩
  · rw [hf, hf1]
    simp [stableStore.Set, hset uuid]
  · rw [ht, hti, hc]
    simp [raftConfigs]

/-- Witness of the persistence lemma on a fresh directory. -/
theorem fresh_identity_persisted_when_write_succeeds_witness :
    ∃ uuid, okEnv.NewV4 = .ok uuid
      ∧ (CreateStore okEnv emptyFields "/data" none).fields serverIdKey = some uuid
      ∧ raftConfigs (CreateStore okEnv emptyFields "/data" none).trace = [{ LocalID := uuid }] :=
  fresh_identity_persisted_when_write_succeeds okEnv emptyFields "/data" none
    { Store.zero with
      badger := some { opts := { Dir := "/data", ValueDir := "/data" },
                       Get := fun _ => .error ErrKeyNotFound },
      raft := some followerRaft } rfl (fun _ => rfl) rfl

/-- C8, evaluated on the code: the identity field is absent and the storage
engine rejects the write of line 68.  `CreateStore` returns a store whose
consensus engine was given the generated identifier, yet the field is still
absent afterwards, and the next start on the same directory gives the
consensus engine another identifier. -/
theorem CreateStore_keeps_going_when_identity_write_fails :
    emptyFields serverIdKey = none
    ∧ setFailEnv.stableSetFault serverIdKey sampleUuid = some ⟨"No space left on device"⟩
    ∧ (∃ st, (CreateStore setFailEnv emptyFields "/data" none).out = .ok st)
    ∧ raftConfigs (CreateStore setFailEnv emptyFields "/data" none).trace =
        [{ LocalID := sampleUuid }]
    ∧ (CreateStore setFailEnv emptyFields "/data" none).fields serverIdKey = none
    ∧ raftConfigs (CreateStore restartEnv
          (CreateStore setFailEnv emptyFields "/data" none).fields "/data" none).trace =
        [{ LocalID := otherUuid }]
    ∧ sampleUuid ≠ otherUuid :=
  ⟨rfl, rfl, ⟨_, rfl⟩, by decide, rfl, by decide, by decide⟩

/-- C10: a store returned by `CreateStore`, for any directory and join
address, has the opened storage engine and the started consensus engine in
its fields and a nil cluster client (and nil sequence client, sequence chunks
and chunk-map mutex); so on such a store, whenever its consensus engine is
not leader, `Set` and `Delete` call `sendCommand` on a nil receiver. -/
theorem created_store_has_nil_cluster_client (env : Env) (fields : StableFields)
    (directory : String) (joinAddr : Option String) (st : Store)
    (hok : (CreateStore env fields directory joinAddr).out = .ok st) :
    (∃ db, env.Open { Dir := directory, ValueDir := directory } = .ok db
        ∧ st.badger = some db)
    ∧ (∃ ra, st.raft = some ra)
    ∧ st.clusterClient = none
    ∧ st.sequenceClient = none
    ∧ st.sequenceChunks = none
    ∧ st.chunkMapMutex = none
    ∧ (∀ r key value, st.raft = some r → r.State ≠ RaftState.Leader →
        (Store.Set env st key value).trace =
          [.raft_State, .raft_Leader, .sendCommand none r.Leader ⟨.SET, key, value⟩]
        ∧ (Store.Delete env st key).trace =
          [.raft_State, .raft_Leader, .sendCommand none r.Leader ⟨.DELETE, key, []⟩]) := by
  obtain ⟨addr, transport, db, ti, fields1, config, snaps, ra, hdb, _, _, hst, _, _⟩ :=
    CreateStore_ok_shape env fields directory joinAddr st hok
  have hcc : st.clusterClient = none := by rw [hst]; rfl
  refine ⟨⟨db, hdb, by rw [hst]⟩, ⟨ra, by rw [hst]⟩, hcc, by rw [hst]; rfl, by rw [hst]; rfl,
    by rw [hst]; rfl, ?_⟩
  intro r key value hr hs
  rw [Set_not_leader env st r key value hr hs, Delete_not_leader env st r key hr hs, hcc]
  exact ⟨rfl, rfl⟩

/-- Witness of C10: the store created on a fresh directory, whose consensus
engine starts as a follower. -/
theorem created_store_has_nil_cluster_client_witness :
    (Store.Set okEnv
        { Store.zero with
          badger := some { opts := { Dir := "/data", ValueDir := "/data" },
                           Get := fun _ => .error ErrKeyNotFound },
          raft := some followerRaft } [107] [118]).trace =
      [.raft_State, .raft_Leader, .sendCommand none "10.0.0.1:6543" ⟨.SET, [107], [118]⟩] :=
  ((created_store_has_nil_cluster_client okEnv emptyFields "/data" (some "10.0.0.1:6543")
      { Store.zero with
        badger := some { opts := { Dir := "/data", ValueDir := "/data" },
                         Get := fun _ => .error ErrKeyNotFound },
        raft := some followerRaft } rfl).2.2.2.2.2.2 followerRaft [107] [118] rfl
      (by decide)).1

end RaftBadger
